import Mathlib

set_option maxRecDepth 100000

/-!
Verification development for the utrack UDP BitTorrent tracker
(src/main.cpp).  The worker loop, the connection-id scheme and the
dispatch of connect, announce and scrape datagrams are embedded as
executable Lean functions over byte lists, and the behavioural claims
about them are proved below the definitions.
-/

namespace Utrack

/-- Big-endian byte decomposition of a 32-bit value, as written by htonl. -/
def octets4 (x : Nat) : List Nat :=
  [x / 2 ^ 24 % 256, x / 2 ^ 16 % 256, x / 2 ^ 8 % 256, x % 256]

/-- Big-endian byte decomposition of a 16-bit value, as written by htons. -/
def octets2 (x : Nat) : List Nat :=
  [x / 2 ^ 8 % 256, x % 256]

/-- Big-endian byte decomposition of a 64-bit value. -/
def octets8 (x : Nat) : List Nat :=
  [x / 2 ^ 56 % 256, x / 2 ^ 48 % 256, x / 2 ^ 40 % 256, x / 2 ^ 32 % 256,
   x / 2 ^ 24 % 256, x / 2 ^ 16 % 256, x / 2 ^ 8 % 256, x % 256]

/-- Big-endian numeric value of the `n` bytes of `d` starting at `off`
(as read by ntohl, ntohs and be64toh on the wire structures). -/
def beVal (d : List Nat) (off n : Nat) : Nat :=
  ((d.drop off).take n).foldl (fun a b => a * 256 + b) 0

/-- The raw bytes of a fixed-width field of a datagram, as memcpy copies them. -/
def field (d : List Nat) (off n : Nat) : List Nat :=
  (d.drop off).take n

/-- 32-bit left rotation (the input is expected below 2 ^ 32). -/
def rotl (n x : Nat) : Nat := ((x <<< n) ||| (x >>> (32 - n))) % 2 ^ 32

/-- Pack a byte list into big-endian 32-bit words, as SHA-1 consumes it. -/
def toWords : List Nat → List Nat
  | b0 :: b1 :: b2 :: b3 :: rest =>
      ((((b0 % 256) * 256 + b1 % 256) * 256 + b2 % 256) * 256 + b3 % 256) :: toWords rest
  | _ => []

/-- SHA-1 padding: append 0x80, zeros, and the 64-bit big-endian bit length,
bringing the total length to a multiple of 64 bytes. -/
def sha1pad (msg : List Nat) : List Nat :=
  msg ++ 0x80 :: (List.replicate ((119 - msg.length % 64) % 64) 0 ++ octets8 (msg.length * 8))

/-- Extend the 16 message words of one block to the 80-word SHA-1 schedule. -/
def sha1schedule (w0 : Array Nat) : Array Nat :=
  (List.range 64).foldl (fun w _ =>
    w.push (rotl 1 ((w.getD (w.size - 3) 0) ^^^ (w.getD (w.size - 8) 0) ^^^
      (w.getD (w.size - 14) 0) ^^^ (w.getD (w.size - 16) 0)))) w0

/-- One round of the SHA-1 compression function. -/
def sha1round (w : Array Nat) (st : Nat × Nat × Nat × Nat × Nat) (i : Nat) :
    Nat × Nat × Nat × Nat × Nat :=
  match st with
  | (a, b, c, d, e) =>
    let f :=
      if i < 20 then (b &&& c) ||| ((2 ^ 32 - 1 - b) &&& d)
      else if i < 40 then b ^^^ c ^^^ d
      else if i < 60 then (b &&& c) ||| (b &&& d) ||| (c &&& d)
      else b ^^^ c ^^^ d
    let k :=
      if i < 20 then 0x5A827999
      else if i < 40 then 0x6ED9EBA1
      else if i < 60 then 0x8F1BBCDC
      else 0xCA62C1D6
    let t := (rotl 5 a + f + e + k + w.getD i 0) % 2 ^ 32
    (t, a, rotl 30 b, c, d)

/-- Compress one 64-byte block into the running SHA-1 state. -/
def sha1block (h : Nat × Nat × Nat × Nat × Nat) (block : List Nat) :
    Nat × Nat × Nat × Nat × Nat :=
  let w := sha1schedule (toWords block).toArray
  match h, (List.range 80).foldl (sha1round w) h with
  | (h0, h1, h2, h3, h4), (a, b, c, d, e) =>
    ((h0 + a) % 2 ^ 32, (h1 + b) % 2 ^ 32, (h2 + c) % 2 ^ 32,
     (h3 + d) % 2 ^ 32, (h4 + e) % 2 ^ 32)

/-- Split a padded message into 64-byte blocks (fuel-driven recursion so
that the function reduces inside the kernel). -/
def sha1chunks : Nat → List Nat → List (List Nat)
  | 0, _ => []
  | _, [] => []
  | fuel + 1, l => l.take 64 :: sha1chunks fuel (l.drop 64)

/-- The SHA-1 digest of a byte list, as a list of 20 bytes. -/
def sha1 (msg : List Nat) : List Nat :=
  let p := sha1pad msg
  let h := (sha1chunks p.length p).foldl sha1block
    (0x67452301, 0xEFCDAB89, 0x98BADCFE, 0x10325476, 0xC3D2E1F0)
  octets4 h.1 ++ octets4 h.2.1 ++ octets4 h.2.2.1 ++ octets4 h.2.2.2.1 ++ octets4 h.2.2.2.2

/-- A client endpoint as seen by recvfrom: the IPv4 address and port, as the
big-endian numeric values of the network-order bytes in sockaddr_in. -/
structure Endpoint where
  ip : Nat
  port : Nat
deriving DecidableEq

/-- gen_secret_digest (main.cpp lines 89-95): clone the secret SHA-1 context
(which has absorbed the 8 secret-key bytes) and hash the 4 address bytes and
the 2 port bytes, equivalent to SHA-1 over the concatenation. -/
def gen_secret_digest (secret : List Nat) (src : Endpoint) : List Nat :=
  sha1 (secret ++ octets4 src.ip ++ octets2 src.port)

/-- generate_connection_id (main.cpp lines 97-105): the first 8 bytes of the
secret digest, kept as raw bytes (the uint64 is a memcpy of them). -/
def generate_connection_id (secret : List Nat) (src : Endpoint) : List Nat :=
  (gen_secret_digest secret src).take 8

/-- verify_connection_id (main.cpp lines 107-112): memcmp of the 8 bytes of
the presented connection id against the first 8 digest bytes. -/
def verify_connection_id (secret : List Nat) (conn_id : List Nat) (src : Endpoint) : Bool :=
  conn_id == (gen_secret_digest secret src).take 8

/-- The outcome of one sendto or sendmsg call, as seen by the worker. -/
inductive SendResult where
  | ok (n : Nat)
  | err (errn : Nat)
deriving DecidableEq

def EINTR : Nat := 4

/-- What becomes of one response: delivered, or the worker returns. -/
inductive SendOutcome where
  | delivered
  | workerExit
deriving DecidableEq

/-- respond (main.cpp lines 115-128): sendto in a loop, where an EINTR error
jumps back to the send via goto and any other error makes the caller return
from the thread. The list is the oracle of successive sendto outcomes; none
means the oracle was exhausted by EINTR results. -/
def respond : List SendResult → Option SendOutcome
  | [] => none
  | .ok _ :: _ => some .delivered
  | .err e :: rest => if e = EINTR then respond rest else some .workerExit

/-- What becomes of the announce response send attempt. -/
inductive AnnounceSendOutcome where
  | sent (n : Nat)
  | dropped
  | workerExit
deriving DecidableEq

/-- The announce response send (main.cpp lines 302-312): a do-while(false)
loop around sendmsg whose EINTR branch executes continue. In C, continue in a
do-while jumps to the controlling expression, which is false, so the loop
exits: only the first sendmsg attempt ever runs. -/
def announce_send : SendResult → AnnounceSendOutcome
  | .ok n => .sent n
  | .err e => if e = EINTR then .dropped else .workerExit

/-- The usual POSIX RAND_MAX of the target platform (glibc): 2 ^ 31 - 1. -/
def RAND_MAX : Nat := 2 ^ 31 - 1

/-- Wrap an integer into the 32-bit two-complement range, the effective
behaviour of int arithmetic on the target platform. -/
def int32 (x : Int) : Int := (x + 2 ^ 31) % 2 ^ 32 - 2 ^ 31

/-- The interval computation of main.cpp line 279, 1680 + rand() * 240 /
RAND_MAX, where rand() * 240 is 32-bit int arithmetic and / truncates
toward zero. -/
def interval_value (r : Nat) : Int :=
  1680 + Int.tdiv (int32 (240 * (r : Int))) 2147483647

/-- The u32 that htonl serializes for the interval field. -/
def intervalWord (r : Nat) : Nat := ((interval_value r) % (2 ^ 32 : Int)).toNat

/-- The connect magic constant checked at main.cpp line 212. -/
def MAGIC : Nat := 0x41727101980

/-- Modelled from the spec: messages.hpp is missing from src, so the cap on
scrape entries per response is taken from the spec, which specifies 74 so
that a response of 8 + 12 * 74 = 896 bytes stays below 900 bytes. -/
def max_scrape_responses : Nat := 74

/-- Modelled from the spec: swarm.hpp is missing from src; the peer-set cap. -/
def MAX_PEERS : Nat := 8192

/-- Modelled from the spec: swarm.hpp is missing from src; the number of
peers returned when num_want is negative. The exact value is not pinned by
the spec and no claim depends on it. -/
def DEFAULT_NUM_WANT : Nat := 50

/-- Modelled from the spec: swarm.hpp is missing from src; the hard cap on
the peer sample. The exact value is not pinned by the spec and no claim
depends on it. -/
def MAX_SAMPLE : Nat := 200

/-- One peer entry of a swarm, per the data model of the spec. -/
structure PeerEntry where
  ip : Nat
  port : Nat
  seeding : Bool
  complete : Bool
  last_seen : Nat
deriving DecidableEq

/-- A swarm: peer list plus cached counters and the rotating sample cursor. -/
structure Swarm where
  peers : List PeerEntry
  seeders : Nat
  leechers : Nat
  download_count : Nat
  cursor : Nat
deriving DecidableEq

/-- A freshly constructed swarm (new swarm at main.cpp line 264). -/
def emptySwarm : Swarm := ⟨[], 0, 0, 0, 0⟩

/-- Peer identity within a swarm is the endpoint. -/
def sameEndpoint (ip port : Nat) (p : PeerEntry) : Bool :=
  p.ip == ip && p.port == port

/-- Rotate a list to start at the sampling cursor. -/
def rotateList (l : List PeerEntry) (n : Nat) : List PeerEntry :=
  l.drop (n % (max 1 l.length)) ++ l.take (n % (max 1 l.length))

/-- Modelled from the spec: swarm.hpp is missing from src. The announce
operation of a swarm, following spec section 4.3: determine the role from
left, upsert the entry keyed by endpoint (evicting the oldest entry when the
set is full), count a download on the first transition to complete, remove
the entry when the event is stopped (3), and sample other peers starting at
the rotating cursor. Returns the updated swarm and the peer sample. -/
def Swarm.announce (s : Swarm) (now ip port leftv event numw : Nat) :
    Swarm × List (Nat × Nat) :=
  let old := s.peers.find? (sameEndpoint ip port)
  let wasComplete := match old with | some p => p.complete | none => false
  let entry : PeerEntry :=
    { ip := ip, port := port, seeding := leftv == 0,
      complete := wasComplete || event == 1, last_seen := now }
  let peers1 :=
    match old with
    | some _ => s.peers.map (fun p => if sameEndpoint ip port p then entry else p)
    | none =>
      (if MAX_PEERS ≤ s.peers.length then s.peers.drop 1 else s.peers) ++ [entry]
  let peers2 :=
    if event == 3 then peers1.filter (fun p => !(sameEndpoint ip port p)) else peers1
  let others := s.peers.filter (fun p => !(sameEndpoint ip port p))
  let sample :=
    ((rotateList others s.cursor).take (min numw MAX_SAMPLE)).map (fun p => (p.ip, p.port))
  ({ peers := peers2,
     seeders := peers2.countP (fun p => p.seeding),
     leechers := peers2.countP (fun p => !p.seeding),
     download_count := s.download_count + (if (event == 1) && !wasComplete then 1 else 0),
     cursor := s.cursor + sample.length }, sample)

/-- Modelled from the spec: swarm.hpp is missing from src. The scrape
operation reads the cached counters (seeders, download_count, leechers). -/
def Swarm.scrape (s : Swarm) : Nat × Nat × Nat :=
  (s.seeders, s.download_count, s.leechers)

/-- Lookup in the swarm hash table, modelled as an association list. -/
def lookupSwarm : List (List Nat × Swarm) → List Nat → Option Swarm
  | [], _ => none
  | kv :: rest, h => if kv.1 = h then some kv.2 else lookupSwarm rest h

/-- Replace the swarm stored under a key (the in-place mutation performed
through the pointer obtained from the table). -/
def updateSwarm (tbl : List (List Nat × Swarm)) (h : List Nat) (s : Swarm) :
    List (List Nat × Swarm) :=
  tbl.map (fun kv => if kv.1 = h then (h, s) else kv)

/-- The announce path table access (main.cpp lines 252-269): look the hash
up under the read lock and, when absent, insert a fresh swarm under the
write lock. -/
def findOrInsert (tbl : List (List Nat × Swarm)) (h : List Nat) :
    List (List Nat × Swarm) :=
  match lookupSwarm tbl h with
  | some _ => tbl
  | none => tbl ++ [(h, emptySwarm)]

/-- Serialization of the peer sample: 4 address bytes and 2 port bytes each. -/
def peersBytes : List (Nat × Nat) → List Nat
  | [] => []
  | p :: rest => octets4 p.1 ++ octets2 p.2 ++ peersBytes rest

/-- Concatenation of the scrape response slots for indices 0, ..., n - 1. -/
def catSlots (f : Nat → List Nat) : Nat → List Nat
  | 0 => []
  | n + 1 => catSlots f n ++ f n

/-- One 12-byte scrape response slot. Modelled from the spec for the absent
case: messages.hpp is missing from src, and the spec states that when the
swarm is absent the response slot is zeroed. -/
def scrapeSlot (tbl : List (List Nat × Swarm)) (h : List Nat) : List Nat :=
  match lookupSwarm tbl h with
  | some s =>
    octets4 (Swarm.scrape s).1 ++ octets4 (Swarm.scrape s).2.1 ++
      octets4 (Swarm.scrape s).2.2
  | none => List.replicate 12 0

/-- Tracker configuration relevant to the dispatcher. -/
structure Config where
  allow_alternate_ip : Bool
deriving DecidableEq

/-- The shared mutable state touched by one worker iteration: the secret,
the swarm table, and the stats counters. -/
structure TrackerState where
  secret : List Nat
  swarms : List (List Nat × Swarm)
  connects : Nat
  announces : Nat
  scrapes : Nat
  errors : Nat
deriving DecidableEq

/-- One iteration of the worker loop body (main.cpp lines 200-371) on a
received datagram d of d.length bytes from endpoint src: the response
datagram, if any, and the updated state. r is the value returned by rand()
and now the current time. Action codes 0 connect, 1 announce, 2 scrape as
in the spec (messages.hpp is missing from src). -/
def handle (cfg : Config) (st : TrackerState) (src : Endpoint) (d : List Nat)
    (r now : Nat) : Option (List Nat) × TrackerState :=
  if d.length < 16 then
    (none, st)
  else if beVal d 8 4 = 0 then
    if beVal d 0 8 ≠ MAGIC then
      (none, { st with errors := st.errors + 1 })
    else
      (some (octets4 0 ++ field d 12 4 ++ generate_connection_id st.secret src),
       { st with connects := st.connects + 1 })
  else if beVal d 8 4 = 1 then
    if !(verify_connection_id st.secret (field d 0 8) src) then
      (none, { st with errors := st.errors + 1 })
    else if d.length < 98 then
      (none, { st with errors := st.errors + 1 })
    else
      let ipf := beVal d 84 4
      let ip := if !cfg.allow_alternate_ip || ipf == 0 then src.ip else ipf
      let hash := field d 16 20
      let tbl1 := findOrInsert st.swarms hash
      let s := (lookupSwarm tbl1 hash).getD emptySwarm
      let nwRaw := beVal d 92 4
      let nw := if nwRaw < 2 ^ 31 then nwRaw else DEFAULT_NUM_WANT
      let res := Swarm.announce s now ip (beVal d 96 2) (beVal d 64 8) (beVal d 80 4) nw
      (some (octets4 1 ++ field d 12 4 ++ octets4 (intervalWord r) ++
         octets4 res.1.leechers ++ octets4 res.1.seeders ++ peersBytes res.2),
       { st with swarms := updateSwarm tbl1 hash res.1,
                 announces := st.announces + 1 })
  else if beVal d 8 4 = 2 then
    if !(verify_connection_id st.secret (field d 0 8) src) then
      (none, { st with errors := st.errors + 1 })
    else if d.length < 36 then
      (none, { st with errors := st.errors + 1 })
    else
      (some (octets4 2 ++ field d 12 4 ++
         catSlots (fun i => scrapeSlot st.swarms (field d (16 + 20 * i) 20))
           (min ((d.length - 16) / 20) max_scrape_responses)),
       { st with scrapes := st.scrapes + 1 })
  else
    (none, { st with errors := st.errors + 1 })

/-- A concrete secret for the concrete executions below. -/
def secret0 : List Nat := [1, 2, 3, 4, 5, 6, 7, 8]

/-- A concrete client endpoint, 127.0.0.1:6881. -/
def ep0 : Endpoint := ⟨0x7f000001, 6881⟩

/-- The default configuration: allow_alternate_ip is false. -/
def cfg0 : Config := ⟨false⟩

/-- The connection-id token that the tracker issues to ep0 under secret0
(the first 8 bytes of the secret digest). -/
def token0 : List Nat := [232, 169, 144, 55, 12, 132, 167, 227]

/-- A concrete tracker state with an empty swarm table. -/
def st0 : TrackerState := ⟨secret0, [], 0, 0, 0, 0⟩

/-- A concrete info-hash. -/
def hashA : List Nat := List.replicate 20 1

/-- A concrete swarm with one seeder and one counted download. -/
def swarmA : Swarm := ⟨[], 1, 0, 1, 0⟩

/-- A concrete tracker state whose table holds hashA. -/
def st1 : TrackerState := ⟨secret0, [(hashA, swarmA)], 0, 0, 0, 0⟩

/-- A well-formed 16-byte connect request (magic connection id). -/
def dConnect : List Nat :=
  [0, 0, 4, 23, 39, 16, 25, 128] ++ [0, 0, 0, 0] ++ [222, 173, 190, 239]

/-- A connect request whose connection id is zero instead of the magic. -/
def dBadConnect : List Nat :=
  List.replicate 8 0 ++ [0, 0, 0, 0] ++ [222, 173, 190, 239]

/-- A 16-byte datagram with the unrecognized action code 9. -/
def dBadAction : List Nat :=
  List.replicate 8 0 ++ [0, 0, 0, 9] ++ [222, 173, 190, 239]

/-- A truncated 15-byte datagram. -/
def dShort : List Nat := List.replicate 15 0

/-- A 97-byte announce with a valid token for ep0, one byte too short. -/
def dAnnShort : List Nat :=
  token0 ++ [0, 0, 0, 1] ++ [1, 2, 3, 4] ++ List.replicate 81 0

/-- A full 98-byte announce with a valid token for ep0: info-hash hashA,
left 0, event started, ip field 0, num_want 50, port 6881. -/
def dAnn : List Nat :=
  token0 ++ [0, 0, 0, 1] ++ [1, 2, 3, 4] ++ List.replicate 20 1 ++
    List.replicate 20 9 ++ List.replicate 8 0 ++ List.replicate 8 0 ++
    List.replicate 8 0 ++ [0, 0, 0, 2] ++ [0, 0, 0, 0] ++ [0, 0, 0, 7] ++
    [0, 0, 0, 50] ++ [26, 225]

/-- A 16-byte scrape with a valid token but no info-hash. -/
def dScrapeShort : List Nat := token0 ++ [0, 0, 0, 2] ++ [1, 2, 3, 4]

/-- A 56-byte scrape with a valid token carrying hashA and an unknown hash. -/
def dScrape : List Nat :=
  token0 ++ [0, 0, 0, 2] ++ [1, 2, 3, 4] ++ List.replicate 20 1 ++ List.replicate 20 2

/-- A SHA-1 digest always has 20 bytes. -/
theorem sha1_length (msg : List Nat) : (sha1 msg).length = 20 := by
  simp [sha1, octets4]

/-- An issued connection-id token always has 8 bytes. -/
theorem generate_connection_id_length (secret : List Nat) (src : Endpoint) :
    (generate_connection_id secret src).length = 8 := by
  simp [generate_connection_id, gen_secret_digest, sha1_length]

/-- A token issued for an endpoint verifies against that endpoint: both
sides compute the same secret digest. -/
theorem verify_generate (secret : List Nat) (src : Endpoint) :
    verify_connection_id secret (generate_connection_id secret src) src = true := by
  simp [verify_connection_id, generate_connection_id]

/-- Length of the concatenated scrape slots when every slot has length c. -/
theorem catSlots_length (f : Nat → List Nat) (c : Nat) (hf : ∀ j, (f j).length = c) :
    ∀ n, (catSlots f n).length = c * n
  | 0 => by simp [catSlots]
  | n + 1 => by
    simp [catSlots, catSlots_length f c hf n, hf, Nat.mul_succ]

/-- Extracting the i-th slot out of the concatenation of n slots of width c. -/
theorem catSlots_extract (f : Nat → List Nat) (c : Nat) (hf : ∀ j, (f j).length = c) :
    ∀ n i, i < n → ((catSlots f n).drop (c * i)).take c = f i := by
  intro n
  induction n with
  | zero => exact fun i h => absurd h (Nat.not_lt_zero i)
  | succ n ih =>
    intro i hi
    rcases Nat.lt_succ_iff_lt_or_eq.mp hi with h | h
    · have hle : c * i + c ≤ c * n := by
        calc c * i + c = c * (i + 1) := by ring
        _ ≤ c * n := Nat.mul_le_mul_left c h
      rw [catSlots, List.drop_append_of_le_length (by rw [catSlots_length f c hf n]; omega),
        List.take_append_of_le_length (by rw [List.length_drop, catSlots_length f c hf n]; omega)]
      exact ih i h
    · subst h
      rw [catSlots, show c * i = (catSlots f i).length from (catSlots_length f c hf i).symm,
        List.drop_left, show c = (f i).length from (hf i).symm, List.take_length]

/-- Every scrape response slot is 12 bytes. -/
theorem scrapeSlot_length (tbl : List (List Nat × Swarm)) (h : List Nat) :
    (scrapeSlot tbl h).length = 12 := by
  cases hL : lookupSwarm tbl h with
  | none => simp [scrapeSlot, hL]
  | some s => simp [scrapeSlot, hL, octets4]

/-- Looking up past a table that misses the key continues in the suffix. -/
theorem lookupSwarm_append_none (tbl l : List (List Nat × Swarm)) (h : List Nat)
    (hn : lookupSwarm tbl h = none) : lookupSwarm (tbl ++ l) h = lookupSwarm l h := by
  induction tbl with
  | nil => simp
  | cons kv rest ih =>
    by_cases hk : kv.1 = h
    · simp [lookupSwarm, hk] at hn
    · simp only [List.cons_append, lookupSwarm, if_neg hk] at hn ⊢
      exact ih hn

/-- Updating the swarm stored under a present key makes lookup return it. -/
theorem lookupSwarm_update_self (tbl : List (List Nat × Swarm)) (h : List Nat) (s : Swarm)
    (hs : (lookupSwarm tbl h).isSome) : lookupSwarm (updateSwarm tbl h s) h = some s := by
  induction tbl with
  | nil => simp [lookupSwarm] at hs
  | cons kv rest ih =>
    by_cases hk : kv.1 = h
    · simp [updateSwarm, lookupSwarm, hk]
    · simp only [lookupSwarm, if_neg hk] at hs
      simp only [updateSwarm, List.map_cons, if_neg hk, lookupSwarm]
      exact ih hs

/-- After an announce whose event is not stopped, the announced endpoint is
among the endpoints stored in the swarm. -/
theorem announce_mem (s : Swarm) (now ip port l e nw : Nat) (he : e ≠ 3) :
    (ip, port) ∈ ((Swarm.announce s now ip port l e nw).1.peers.map (fun p => (p.ip, p.port))) := by
  have h3 : (e == 3) = false := by simp [he]
  cases hf : s.peers.find? (sameEndpoint ip port) with
  | none => simp [Swarm.announce, hf, h3]
  | some p0 =>
    have hp0 : sameEndpoint ip port p0 = true := List.find?_some hf
    have hmem : p0 ∈ s.peers := List.mem_of_find?_eq_some hf
    simp only [Swarm.announce, hf, h3, Bool.false_eq_true, if_false]
    refine List.mem_map.mpr ⟨_, List.mem_map.mpr ⟨p0, hmem, rfl⟩, ?_⟩
    simp [hp0]

/-- token0 is the token the oracle issues to ep0 under secret0 (one concrete
SHA-1 evaluation, checked by the kernel). -/
theorem verify_token0 : verify_connection_id secret0 token0 ep0 = true := by decide

/-- The 97-byte announce dAnnShort carries a valid token for ep0. -/
theorem verify_dAnnShort : verify_connection_id secret0 (field dAnnShort 0 8) ep0 = true := by
  have h : field dAnnShort 0 8 = token0 := by decide
  rw [h]
  exact verify_token0

/-- The 98-byte announce dAnn carries a valid token for ep0. -/
theorem verify_dAnn : verify_connection_id secret0 (field dAnn 0 8) ep0 = true := by
  have h : field dAnn 0 8 = token0 := by decide
  rw [h]
  exact verify_token0

/-- The 16-byte scrape dScrapeShort carries a valid token for ep0. -/
theorem verify_dScrapeShort :
    verify_connection_id secret0 (field dScrapeShort 0 8) ep0 = true := by
  have h : field dScrapeShort 0 8 = token0 := by decide
  rw [h]
  exact verify_token0

/-- The 56-byte scrape dScrape carries a valid token for ep0. -/
theorem verify_dScrape : verify_connection_id secret0 (field dScrape 0 8) ep0 = true := by
  have h : field dScrape 0 8 = token0 := by decide
  rw [h]
  exact verify_token0

/-- C1: for every secret state and client endpoint e, verify(issue(e), e)
is true: issue computes the SHA-1 digest of the secret state followed by
the 4 address bytes and the 2 port bytes of e and keeps its first 8 bytes,
and verify compares the presented token byte-wise against those same first
8 digest bytes. -/
theorem connection_id_roundtrip (secret : List Nat) (e : Endpoint) :
    verify_connection_id secret (generate_connection_id secret e) e = true :=
  verify_generate secret e

/-- C2: a connect datagram of at least 16 bytes whose connection-id field is
the magic 0x41727101980 is answered with exactly 16 bytes: action 0, the
transaction id of the request copied verbatim, and a connection-id token
that verifies against the source endpoint; the connects counter grows by 1. -/
theorem connect_response_ok (cfg : Config) (st : TrackerState) (src : Endpoint)
    (d : List Nat) (r now : Nat) (hlen : 16 ≤ d.length)
    (hact : beVal d 8 4 = 0) (hmagic : beVal d 0 8 = MAGIC) :
    handle cfg st src d r now =
      (some (octets4 0 ++ field d 12 4 ++ generate_connection_id st.secret src),
       { st with connects := st.connects + 1 }) ∧
    (octets4 0 ++ field d 12 4 ++ generate_connection_id st.secret src).length = 16 ∧
    verify_connection_id st.secret (generate_connection_id st.secret src) src = true := by
  have hnl : ¬ d.length < 16 := by omega
  refine ⟨?_, ?_, verify_generate st.secret src⟩
  · simp [handle, hnl, hact, hmagic]
  · simp [octets4, field, generate_connection_id_length, List.length_take, List.length_drop]
    omega

/-- C2 witness: the connect handshake on a concrete 16-byte connect request. -/
theorem connect_response_ok_witness :
    handle cfg0 st0 ep0 dConnect 0 0 =
      (some (octets4 0 ++ field dConnect 12 4 ++ generate_connection_id st0.secret ep0),
       { st0 with connects := st0.connects + 1 }) ∧
    (octets4 0 ++ field dConnect 12 4 ++ generate_connection_id st0.secret ep0).length = 16 ∧
    verify_connection_id st0.secret (generate_connection_id st0.secret ep0) ep0 = true :=
  connect_response_ok cfg0 st0 ep0 dConnect 0 0 (by decide) (by decide) (by decide)

/-- C4 (code bug): on the target platform rand() * 240 is 32-bit signed
arithmetic with RAND_MAX = 2 ^ 31 - 1, so for the valid rand() value
134217728 the product wraps to -2 ^ 31 and the interval of main.cpp line
279 evaluates to 1679, outside the claimed range [1680, 1920]. -/
theorem interval_overflow_bug :
    134217728 ≤ RAND_MAX ∧ interval_value 134217728 = 1679 ∧
    intervalWord 134217728 = 1679 := by decide

/-- C5 counterexample: a 15-byte datagram is dropped without touching the
errors counter, contradicting the claim that errors is incremented. -/
theorem short_datagram_cex :
    (handle cfg0 st0 ep0 dShort 0 0).1 = none ∧
    (handle cfg0 st0 ep0 dShort 0 0).2.errors ≠ st0.errors + 1 := by decide

/-- C5 amended: a datagram shorter than 16 bytes is dropped with no response
and no state change at all (in particular errors is not incremented); an
announce with a valid token shorter than 98 bytes, and a datagram of at
least 16 bytes with an unrecognized action code, are dropped with no
response and errors incremented by 1. -/
theorem malformed_datagram_handling (cfg : Config) (st : TrackerState) (src : Endpoint)
    (d : List Nat) (r now : Nat) :
    (d.length < 16 → handle cfg st src d r now = (none, st)) ∧
    (16 ≤ d.length → beVal d 8 4 = 1 →
      verify_connection_id st.secret (field d 0 8) src = true → d.length < 98 →
      handle cfg st src d r now = (none, { st with errors := st.errors + 1 })) ∧
    (16 ≤ d.length → beVal d 8 4 ≠ 0 → beVal d 8 4 ≠ 1 → beVal d 8 4 ≠ 2 →
      handle cfg st src d r now = (none, { st with errors := st.errors + 1 })) := by
  refine ⟨fun h => by simp [handle, h], ?_, ?_⟩
  · intro hlen h1 hv h98
    have hnl : ¬ d.length < 16 := by omega
    simp [handle, hnl, h1, hv, h98]
  · intro hlen h0 h1 h2
    have hnl : ¬ d.length < 16 := by omega
    simp [handle, hnl, h0, h1, h2]

/-- C5 amended witness: the three drop cases on concrete datagrams: a
15-byte datagram, a 97-byte announce with a valid token, and a 16-byte
datagram with action code 9. -/
theorem malformed_datagram_handling_witness :
    handle cfg0 st0 ep0 dShort 0 0 = (none, st0) ∧
    handle cfg0 st0 ep0 dAnnShort 0 0 = (none, { st0 with errors := st0.errors + 1 }) ∧
    handle cfg0 st0 ep0 dBadAction 0 0 = (none, { st0 with errors := st0.errors + 1 }) :=
  ⟨(malformed_datagram_handling cfg0 st0 ep0 dShort 0 0).1 (by decide),
   (malformed_datagram_handling cfg0 st0 ep0 dAnnShort 0 0).2.1 (by decide) (by decide)
     verify_dAnnShort (by decide),
   (malformed_datagram_handling cfg0 st0 ep0 dBadAction 0 0).2.2 (by decide) (by decide)
     (by decide) (by decide)⟩

/-- C6: a connect whose connection id is not the magic, and an announce or
scrape whose token does not verify against the source endpoint, produce no
response, increment errors by 1, and leave the swarm table untouched. -/
theorem auth_failure_drops (cfg : Config) (st : TrackerState) (src : Endpoint)
    (d : List Nat) (r now : Nat) (hlen : 16 ≤ d.length)
    (hbad : (beVal d 8 4 = 0 ∧ beVal d 0 8 ≠ MAGIC) ∨
      ((beVal d 8 4 = 1 ∨ beVal d 8 4 = 2) ∧
        verify_connection_id st.secret (field d 0 8) src = false)) :
    handle cfg st src d r now = (none, { st with errors := st.errors + 1 }) ∧
    (handle cfg st src d r now).2.swarms = st.swarms := by
  have hnl : ¬ d.length < 16 := by omega
  have heq : handle cfg st src d r now = (none, { st with errors := st.errors + 1 }) := by
    rcases hbad with ⟨h0, hm⟩ | ⟨h12, hv⟩
    · simp [handle, hnl, h0, hm]
    · rcases h12 with h1 | h2
      · simp [handle, hnl, h1, hv]
      · simp [handle, hnl, h2, hv]
  exact ⟨heq, by rw [heq]⟩

/-- C6 witness: a concrete connect datagram with connection id 0. -/
theorem auth_failure_drops_witness :
    handle cfg0 st0 ep0 dBadConnect 0 0 = (none, { st0 with errors := st0.errors + 1 }) ∧
    (handle cfg0 st0 ep0 dBadConnect 0 0).2.swarms = st0.swarms :=
  auth_failure_drops cfg0 st0 ep0 dBadConnect 0 0 (by decide) (Or.inl (by decide))

/-- After findOrInsert, the key is always present in the table. -/
theorem findOrInsert_isSome (tbl : List (List Nat × Swarm)) (h : List Nat) :
    (lookupSwarm (findOrInsert tbl h) h).isSome := by
  cases hL : lookupSwarm tbl h with
  | some s => simp [findOrInsert, hL]
  | none =>
    simp only [findOrInsert, hL]
    rw [lookupSwarm_append_none _ _ _ hL]
    simp [lookupSwarm]

/-- The announce table round trip: after find-or-insert, announce and write
back, the table holds a swarm containing the announced endpoint. -/
theorem table_upsert_mem (tbl : List (List Nat × Swarm)) (hash : List Nat)
    (now ip port l e nw : Nat) (he : e ≠ 3) :
    ∃ s2, lookupSwarm (updateSwarm (findOrInsert tbl hash) hash
        (Swarm.announce ((lookupSwarm (findOrInsert tbl hash) hash).getD emptySwarm)
          now ip port l e nw).1) hash = some s2 ∧
      (ip, port) ∈ s2.peers.map (fun p => (p.ip, p.port)) :=
  ⟨_, lookupSwarm_update_self _ _ _ (findOrInsert_isSome tbl hash),
    announce_mem _ now ip port l e nw he⟩

/-- C3: in a scrape response, the slot of a requested info-hash for which
no swarm exists is all zeros, while the slot of a hash with a swarm holds
that swarm counters (seeders, download_count, leechers) as big-endian u32. -/
theorem scrape_slots_ok (cfg : Config) (st : TrackerState) (src : Endpoint)
    (d : List Nat) (r now i : Nat) (hact : beVal d 8 4 = 2)
    (hv : verify_connection_id st.secret (field d 0 8) src = true)
    (hlen : 36 ≤ d.length)
    (hi : i < min ((d.length - 16) / 20) max_scrape_responses) :
    (lookupSwarm st.swarms (field d (16 + 20 * i) 20) = none →
      (((handle cfg st src d r now).1.getD []).drop (8 + 12 * i)).take 12 =
        List.replicate 12 0) ∧
    (∀ s, lookupSwarm st.swarms (field d (16 + 20 * i) 20) = some s →
      (((handle cfg st src d r now).1.getD []).drop (8 + 12 * i)).take 12 =
        octets4 s.seeders ++ octets4 s.download_count ++ octets4 s.leechers) := by
  have hnl : ¬ d.length < 16 := by omega
  have h36 : ¬ d.length < 36 := by omega
  have hfl : (field d 12 4).length = 4 := by
    simp only [field, List.length_take, List.length_drop]
    omega
  have hh : handle cfg st src d r now =
      (some (octets4 2 ++ field d 12 4 ++
        catSlots (fun j => scrapeSlot st.swarms (field d (16 + 20 * j) 20))
          (min ((d.length - 16) / 20) max_scrape_responses)),
       { st with scrapes := st.scrapes + 1 }) := by
    simp [handle, hact, hnl, hv, h36]
  have hA : (octets4 2 ++ field d 12 4).length = 8 := by
    simp [octets4, hfl]
  have key : (((handle cfg st src d r now).1.getD []).drop (8 + 12 * i)).take 12 =
      scrapeSlot st.swarms (field d (16 + 20 * i) 20) := by
    rw [hh]
    simp only [Option.getD_some]
    rw [← List.drop_drop (12 * i) 8,
      show (8 : Nat) = (octets4 2 ++ field d 12 4).length from hA.symm,
      List.drop_left]
    exact catSlots_extract _ 12 (fun j => scrapeSlot_length st.swarms _) _ i hi
  refine ⟨fun hn => ?_, fun s hs => ?_⟩
  · rw [key]
    simp [scrapeSlot, hn]
  · rw [key]
    simp [scrapeSlot, hs, Swarm.scrape]

/-- C3 witness: a concrete scrape of two hashes against a table holding the
first: the first slot reports the swarm counters, the second is zeroed. -/
theorem scrape_slots_ok_witness :
    ((lookupSwarm st1.swarms (field dScrape (16 + 20 * 0) 20) = none →
      (((handle cfg0 st1 ep0 dScrape 0 0).1.getD []).drop (8 + 12 * 0)).take 12 =
        List.replicate 12 0) ∧
    (∀ s, lookupSwarm st1.swarms (field dScrape (16 + 20 * 0) 20) = some s →
      (((handle cfg0 st1 ep0 dScrape 0 0).1.getD []).drop (8 + 12 * 0)).take 12 =
        octets4 s.seeders ++ octets4 s.download_count ++ octets4 s.leechers)) ∧
    ((lookupSwarm st1.swarms (field dScrape (16 + 20 * 1) 20) = none →
      (((handle cfg0 st1 ep0 dScrape 0 0).1.getD []).drop (8 + 12 * 1)).take 12 =
        List.replicate 12 0) ∧
    (∀ s, lookupSwarm st1.swarms (field dScrape (16 + 20 * 1) 20) = some s →
      (((handle cfg0 st1 ep0 dScrape 0 0).1.getD []).drop (8 + 12 * 1)).take 12 =
        octets4 s.seeders ++ octets4 s.download_count ++ octets4 s.leechers)) :=
  ⟨scrape_slots_ok cfg0 st1 ep0 dScrape 0 0 0 (by decide) verify_dScrape
      (by decide) (by decide),
   scrape_slots_ok cfg0 st1 ep0 dScrape 0 0 1 (by decide) verify_dScrape
      (by decide) (by decide)⟩

/-- The scrape answer and its length: a valid scrape of at least 36 bytes
is answered with 8 + 12 * min(floor((size - 16) / 20), max_scrape_responses)
bytes. -/
theorem scrape_length_core (cfg : Config) (st : TrackerState) (src : Endpoint)
    (d : List Nat) (r now : Nat) (hact : beVal d 8 4 = 2)
    (hv : verify_connection_id st.secret (field d 0 8) src = true)
    (hlen : 36 ≤ d.length) :
    (handle cfg st src d r now).1 ≠ none ∧
    ((handle cfg st src d r now).1.getD []).length =
      8 + 12 * min ((d.length - 16) / 20) max_scrape_responses := by
  have hnl : ¬ d.length < 16 := by omega
  have h36 : ¬ d.length < 36 := by omega
  have hh : handle cfg st src d r now =
      (some (octets4 2 ++ field d 12 4 ++
        catSlots (fun i => scrapeSlot st.swarms (field d (16 + 20 * i) 20))
          (min ((d.length - 16) / 20) max_scrape_responses)),
       { st with scrapes := st.scrapes + 1 }) := by
    simp [handle, hact, hnl, hv, h36]
  rw [hh]
  refine ⟨by simp, ?_⟩
  simp only [Option.getD_some, List.length_append,
    catSlots_length _ 12 (fun j => scrapeSlot_length st.swarms _)]
  simp only [octets4, field, List.length_take, List.length_drop, List.length_cons,
    List.length_nil]
  omega

/-- C8: a scrape with a valid token is answered, and the number of slots in
the response is the minimum of the number of hashes in the request (the
wire format fixes it at floor((size - 16) / 20)), floor((size - 16) / 20),
and max_scrape_responses; the response is exactly 8 + 12 times that many
bytes. -/
theorem scrape_response_length (cfg : Config) (st : TrackerState) (src : Endpoint)
    (d : List Nat) (r now : Nat) (hact : beVal d 8 4 = 2)
    (hv : verify_connection_id st.secret (field d 0 8) src = true)
    (hlen : 36 ≤ d.length) :
    (handle cfg st src d r now).1 ≠ none ∧
    ((handle cfg st src d r now).1.getD []).length =
      8 + 12 * min ((d.length - 16) / 20)
        (min ((d.length - 16) / 20) max_scrape_responses) := by
  obtain ⟨h1, h2⟩ := scrape_length_core cfg st src d r now hact hv hlen
  refine ⟨h1, ?_⟩
  rw [h2]
  omega

/-- C8 witness: the concrete two-hash scrape is answered with 8 + 12 * 2
bytes. -/
theorem scrape_response_length_witness :
    (handle cfg0 st1 ep0 dScrape 0 0).1 ≠ none ∧
    ((handle cfg0 st1 ep0 dScrape 0 0).1.getD []).length =
      8 + 12 * min ((dScrape.length - 16) / 20)
        (min ((dScrape.length - 16) / 20) max_scrape_responses) :=
  scrape_response_length cfg0 st1 ep0 dScrape 0 0 (by decide) verify_dScrape (by decide)

/-- C9: on an announce (valid token, not a stopped event), the endpoint
recorded in the swarm uses the client-supplied ip field only when
allow_alternate_ip is true and the field is nonzero; otherwise it is built
from the source address of the datagram. -/
theorem announce_ip_selection (cfg : Config) (st : TrackerState) (src : Endpoint)
    (d : List Nat) (r now : Nat) (hact : beVal d 8 4 = 1)
    (hv : verify_connection_id st.secret (field d 0 8) src = true)
    (hlen : 98 ≤ d.length) (hev : beVal d 80 4 ≠ 3) :
    ∃ s2, lookupSwarm (handle cfg st src d r now).2.swarms (field d 16 20) = some s2 ∧
      ((if cfg.allow_alternate_ip ∧ beVal d 84 4 ≠ 0 then beVal d 84 4 else src.ip),
        beVal d 96 2) ∈ s2.peers.map (fun p => (p.ip, p.port)) := by
  have hnl : ¬ d.length < 16 := by omega
  have h98 : ¬ d.length < 98 := by omega
  have hcode : (if (!cfg.allow_alternate_ip || (beVal d 84 4 == 0)) = true then src.ip
      else beVal d 84 4) =
      (if cfg.allow_alternate_ip ∧ beVal d 84 4 ≠ 0 then beVal d 84 4 else src.ip) := by
    cases hA : cfg.allow_alternate_ip <;> by_cases h0 : beVal d 84 4 = 0 <;> simp [hA, h0]
  have hh : (handle cfg st src d r now).2.swarms =
      updateSwarm (findOrInsert st.swarms (field d 16 20)) (field d 16 20)
        (Swarm.announce
          ((lookupSwarm (findOrInsert st.swarms (field d 16 20)) (field d 16 20)).getD emptySwarm)
          now
          (if (!cfg.allow_alternate_ip || (beVal d 84 4 == 0)) = true then src.ip
            else beVal d 84 4)
          (beVal d 96 2) (beVal d 64 8) (beVal d 80 4)
          (if beVal d 92 4 < 2 ^ 31 then beVal d 92 4 else DEFAULT_NUM_WANT)).1 := by
    simp [handle, hact, hnl, hv, h98]
  rw [hh, hcode]
  exact table_upsert_mem st.swarms (field d 16 20) now _ (beVal d 96 2) _ _ _ hev

/-- C9 witness: the concrete announce dAnn (ip field 0, default
configuration) records the source endpoint of ep0. -/
theorem announce_ip_selection_witness :
    ∃ s2, lookupSwarm (handle cfg0 st0 ep0 dAnn 0 0).2.swarms (field dAnn 16 20) = some s2 ∧
      ((if cfg0.allow_alternate_ip ∧ beVal dAnn 84 4 ≠ 0 then beVal dAnn 84 4 else ep0.ip),
        beVal dAnn 96 2) ∈ s2.peers.map (fun p => (p.ip, p.port)) :=
  announce_ip_selection cfg0 st0 ep0 dAnn 0 0 (by decide) verify_dAnn (by decide) (by decide)

/-- C10: a scrape with a valid token but fewer than 36 bytes (no complete
20-byte hash) is rejected with errors incremented and no response; a scrape
of 36 to 1496 bytes (the receive buffer bounds datagrams at 1496) is
answered with floor((size - 16) / 20) slots, trailing bytes ignored. -/
theorem scrape_length_checks (cfg : Config) (st : TrackerState) (src : Endpoint)
    (d : List Nat) (r now : Nat) (hact : beVal d 8 4 = 2)
    (hv : verify_connection_id st.secret (field d 0 8) src = true) :
    (16 ≤ d.length → d.length < 36 →
      handle cfg st src d r now = (none, { st with errors := st.errors + 1 })) ∧
    (36 ≤ d.length → d.length ≤ 1496 →
      ((handle cfg st src d r now).1.getD []).length =
        8 + 12 * ((d.length - 16) / 20)) := by
  constructor
  · intro hlen h36
    have hnl : ¬ d.length < 16 := by omega
    simp [handle, hact, hnl, hv, h36]
  · intro h36 hcap
    have h := (scrape_length_core cfg st src d r now hact hv h36).2
    rw [h]
    simp only [max_scrape_responses]
    omega

/-- C10 witness: the concrete 16-byte scrape is rejected with errors
incremented, and the concrete 56-byte scrape is answered with two slots. -/
theorem scrape_length_checks_witness :
    handle cfg0 st0 ep0 dScrapeShort 0 0 = (none, { st0 with errors := st0.errors + 1 }) ∧
    ((handle cfg0 st1 ep0 dScrape 0 0).1.getD []).length =
      8 + 12 * ((dScrape.length - 16) / 20) :=
  ⟨(scrape_length_checks cfg0 st0 ep0 dScrapeShort 0 0 (by decide) verify_dScrapeShort).1
      (by decide) (by decide),
   (scrape_length_checks cfg0 st1 ep0 dScrape 0 0 (by decide) verify_dScrape).2
      (by decide) (by decide)⟩

/-- C7 (code bug): the respond helper used by the connect and scrape paths
retries a send that fails with EINTR and exits the worker on any other
error, but the announce path send loop is do-while(false): its EINTR branch
executes continue, which jumps to the false loop condition, so the response
is dropped without a retry. -/
theorem announce_send_eintr_dropped :
    announce_send (SendResult.err EINTR) = AnnounceSendOutcome.dropped ∧
    respond (SendResult.err EINTR :: [SendResult.ok 16]) = some SendOutcome.delivered ∧
    respond [SendResult.err 101] = some SendOutcome.workerExit ∧
    announce_send (SendResult.err 101) = AnnounceSendOutcome.workerExit := by decide

end Utrack
